import Mathlib

/-!
Verification of the os-exec library (src/os-exec.hh): a shallow embedding of
the error taxonomy, the shell-quoting helper, the exec-failure channel and the
run / run_echo protocol, together with theorems settling the specification
claims against this embedding.
-/

namespace os_exec

/-- Embedding of std::error_category: a stable name and a message rendering.
Each C++ category struct becomes a value of this structure. -/
structure error_category where
  name : String
  message : Int → String

/-- Embedding of struct Non_Zero_Exit_Code (src/os-exec.hh lines 19-23). -/
def Non_Zero_Exit_Code : error_category :=
  { name := "Non_Zero_Exit_Code"
    message := fun value => "exit status " ++ toString value }

/-- Embedding of struct Killed_By_Signal (src/os-exec.hh lines 25-29). -/
def Killed_By_Signal : error_category :=
  { name := "Killed_By_Signal"
    message := fun value => "killed by signal " ++ toString value }

/-- Embedding of struct Stopped_By_Signal (src/os-exec.hh lines 31-35). -/
def Stopped_By_Signal : error_category :=
  { name := "Stopped_By_Signal"
    message := fun value => "stopped by signal " ++ toString value }

/-- Embedding of struct Unknown_Termination_Cause (src/os-exec.hh lines 37-41);
the message ignores the payload. -/
def Unknown_Termination_Cause : error_category :=
  { name := "Unknown_Termination_Cause"
    message := fun _ => "unknown termination cause" }

/-- Identity of the category singleton an error_code points at.  The C++
code compares categories by the address of the process-wide singleton, so an
inductive tag models that identity.  system_category is the domain of the
default-constructed std::error_code (the OK outcome); generic_category is the
domain produced by std::make_error_code on an errno value; the other four are
the singletons returned by the accessor functions at lines 43-46. -/
inductive Domain where
  | system_category
  | generic_category
  | non_zero_exit_code
  | killed_by_signal
  | stopped_by_signal
  | unknown_termination_cause
deriving DecidableEq

/-- Embedding of std::error_code: an integer payload and the identity of its
category. -/
structure error_code where
  val : Int
  cat : Domain
deriving DecidableEq

/-- The outcome produced by `return {}` in run: value 0 in the system
category. -/
def ok_code : error_code := ⟨0, Domain.system_category⟩

/-- Embedding of std::make_error_code((std::errc)errno): the errno value in
the generic category. -/
def make_error_code (e : Nat) : error_code := ⟨(e : Int), Domain.generic_category⟩

/-! ### Shell quoting (src/os-exec.hh lines 49-74) -/

/-- The literal safe set used by shell_quote at line 57. -/
def safe_chars : List Char := "@%+=:,./-_".toList

/-- The per-character predicate of the std::all_of check at line 57:
std::isalnum in the C locale, or membership in the safe set. -/
def is_safe_char (c : Char) : Bool := c.isAlphanum || safe_chars.contains c

/-- Embedding of std::string_view::find applied to a single character
(line 65): the index of the first apostrophe, or none when there is none
(npos).  The index carries its bound, as a valid position into the list. -/
def find_quote : (l : List Char) → Option (Fin l.length)
  | [] => none
  | c :: rest =>
      if c = '\'' then some ⟨0, Nat.succ_pos rest.length⟩
      else (find_quote rest).map (fun i => ⟨i.val + 1, Nat.succ_lt_succ i.isLt⟩)

/-- Embedding of the quoting loop at lines 65-72: repeatedly find the next
apostrophe, append the segment before it followed by the two characters
backslash and apostrophe, and continue on the remainder; when no apostrophe
is left the remainder is appended as is. -/
def escape_quotes (value : List Char) : List Char :=
  match find_quote value with
  | some quote =>
      (value.take quote.val ++ ['\\', '\'']) ++ escape_quotes (value.drop (quote.val + 1))
  | none => value
termination_by value.length
decreasing_by
  have h := quote.isLt
  simp only [List.length_drop]
  omega

/-- Spec-side transform for the refinement claim about quoting, following the
words of the specification: the input with every apostrophe replaced by the
two-byte sequence backslash-apostrophe.  It is compared with the loop
embedding escape_quotes taken from the source. -/
def replace_apostrophes : List Char → List Char
  | [] => []
  | c :: rest => (if c = '\'' then ['\\', '\''] else [c]) ++ replace_apostrophes rest

/-- Embedding of shell_quote (src/os-exec.hh lines 49-74): empty input yields
a pair of apostrophes; input made only of safe characters is returned
verbatim; otherwise the escaped body is wrapped in one pair of
apostrophes. -/
def shell_quote (value : String) : String :=
  if value.isEmpty then "''"
  else if value.toList.all is_safe_char then value
  else String.mk ('\'' :: escape_quotes value.toList ++ ['\''])

/-! ### Wait-status macros (glibc bits/waitstatus.h, used at lines 118-123) -/

/-- WTERMSIG: the low seven bits of the wait status (status and 0x7f). -/
def WTERMSIG (s : Nat) : Nat := s % 128

/-- WEXITSTATUS: bits 8-15 of the wait status ((status and 0xff00)
shifted right by 8). -/
def WEXITSTATUS (s : Nat) : Nat := s / 256 % 256

/-- WSTOPSIG is defined as WEXITSTATUS. -/
def WSTOPSIG (s : Nat) : Nat := WEXITSTATUS s

/-- WIFEXITED: the termination signal bits are all zero. -/
def WIFEXITED (s : Nat) : Bool := WTERMSIG s = 0

/-- Conversion of a machine byte to a signed char value, as used inside the
WIFSIGNALED macro. -/
def signed_char (n : Nat) : Int :=
  if n % 256 < 128 then (n % 256 : Int) else (n % 256 : Int) - 256

/-- WIFSIGNALED: ((signed char)(((status and 0x7f) + 1) shifted right
arithmetically by 1)) is positive.  The arithmetic shift is division by two,
exact on every value this expression produces. -/
def WIFSIGNALED (s : Nat) : Bool := decide (0 < signed_char (WTERMSIG s + 1) / 2)

/-- WIFSTOPPED: the low byte of the wait status equals 0x7f. -/
def WIFSTOPPED (s : Nat) : Bool := s % 256 = 127

/-! ### The run protocol (src/os-exec.hh lines 77-126) -/

/-- Result of one system call in the environment model: success with a value,
or failure with the errno the call set. -/
inductive SysResult (α : Type) where
  | ok (a : α)
  | err (errno : Nat)
deriving DecidableEq

/-- Behaviour of the execlp call in the child: either the process image is
replaced (execlp does not return), or execlp returns the value rv with errno
set to the given value. -/
inductive ExecBehavior where
  | replaced
  | returned (rv : Int) (errno : Nat)
deriving DecidableEq

/-- What the child process ends up doing (src/os-exec.hh lines 100-107):
its image is replaced by a successful exec; or it stores an errno into the
exec-failure channel and terminates via exit(1); or it falls through to the
assert placed after the execlp call. -/
inductive ChildOutcome where
  | execed
  | exitFailure (channel : Nat)
  | assertReached
deriving DecidableEq

/-- Embedding of the child branch (lines 100-107): execlp either replaces the
image, or returns rv; when rv is negative the child stores errno into the
channel and calls exit(1); otherwise control reaches the assert. -/
def childPath (b : ExecBehavior) : ChildOutcome :=
  match b with
  | ExecBehavior.replaced => ChildOutcome.execed
  | ExecBehavior.returned rv e =>
      if rv < 0 then ChildOutcome.exitFailure e else ChildOutcome.assertReached

/-- The value the parent reads from the exec-failure channel after the reap:
0 when the channel was never written (the cell is zeroed at line 92), the
stored errno when the child took the exec-failure branch. -/
def child_channel (b : ExecBehavior) : Int :=
  match childPath b with
  | ChildOutcome.execed => 0
  | ChildOutcome.exitFailure e => (e : Int)
  | ChildOutcome.assertReached => 0

/-- The POSIX contract for execlp: either it does not return, or it returns a
negative value with a nonzero errno. -/
def PosixExec : ExecBehavior → Prop
  | ExecBehavior.replaced => True
  | ExecBehavior.returned rv e => rv < 0 ∧ e ≠ 0

/-- One invocation environment for run: the behaviour the operating system
exhibits for the mmap, fork, execlp and waitpid calls of that invocation. -/
structure OSEnv where
  mmap : SysResult Unit
  fork : SysResult Unit
  exec : ExecBehavior
  wait : SysResult Nat
deriving DecidableEq

/-- POSIX well-formedness of an environment: failing calls set a nonzero
errno, execlp obeys its contract, and a stopped wait status reports a nonzero
stop signal. -/
def OSEnv.valid (env : OSEnv) : Prop :=
  (match env.mmap with | SysResult.ok _ => True | SysResult.err e => e ≠ 0) ∧
  (match env.fork with | SysResult.ok _ => True | SysResult.err e => e ≠ 0) ∧
  PosixExec env.exec ∧
  (match env.wait with
   | SysResult.ok w => WIFSTOPPED w = true → WSTOPSIG w ≠ 0
   | SysResult.err e => e ≠ 0)

/-- Resource events on the exec-failure cell observed during one run call:
the mmap allocation, the fork, and the munmap release performed by the
Exec_Failure destructor when the cell pointer is not null (lines 85-89). -/
inductive Event where
  | alloc
  | forked
  | free
deriving DecidableEq

/-- Embedding of run (src/os-exec.hh lines 77-126).  The first component is
the returned std::error_code; the second is the sequence of resource events
on the exec-failure cell, the final free being the destructor run at scope
exit on each return path.  program and args are carried for faithfulness of
the interface; the outcome is a function of the OS behaviour alone. -/
def run (program : String) (args : List String) (env : OSEnv) : error_code × List Event :=
  match env.mmap with
  | SysResult.err e => (make_error_code e, [])
  | SysResult.ok _ =>
    match env.fork with
    | SysResult.err e => (make_error_code e, [Event.alloc, Event.free])
    | SysResult.ok _ =>
      match env.wait with
      | SysResult.err e => (make_error_code e, [Event.alloc, Event.forked, Event.free])
      | SysResult.ok wstatus =>
        if child_channel env.exec ≠ 0 then
          (⟨child_channel env.exec, Domain.generic_category⟩,
            [Event.alloc, Event.forked, Event.free])
        else if WIFEXITED wstatus then
          if WEXITSTATUS wstatus = 0 then
            (ok_code, [Event.alloc, Event.forked, Event.free])
          else
            (⟨(WEXITSTATUS wstatus : Int), Domain.non_zero_exit_code⟩,
              [Event.alloc, Event.forked, Event.free])
        else if WIFSIGNALED wstatus then
          (⟨(WTERMSIG wstatus : Int), Domain.killed_by_signal⟩,
            [Event.alloc, Event.forked, Event.free])
        else if WIFSTOPPED wstatus then
          (⟨(WSTOPSIG wstatus : Int), Domain.stopped_by_signal⟩,
            [Event.alloc, Event.forked, Event.free])
        else
          (⟨1, Domain.unknown_termination_cause⟩,
            [Event.alloc, Event.forked, Event.free])

/-- The line run_echo prints (src/os-exec.hh lines 132-134): the writes of
the fold expression accumulated left to right, then the newline of
std::endl. -/
def echo_line (program : String) (args : List String) : String :=
  args.foldl (fun acc arg => acc ++ " " ++ shell_quote arg) (shell_quote program) ++ "\n"

/-- Spec-side rendering of the argument part of the echoed line, following
the words of the specification: for each argument a space followed by its
quoting. -/
def echo_args_spec : List String → String
  | [] => ""
  | arg :: rest => " " ++ shell_quote arg ++ echo_args_spec rest

/-- Spec-side rendering of the whole echoed line: the quoted program, then
for each argument a space and its quoting, then a newline. -/
def echo_line_spec (program : String) (args : List String) : String :=
  shell_quote program ++ echo_args_spec args ++ "\n"

/-- Embedding of run_echo (src/os-exec.hh lines 128-136): the printed line
and the delegated run outcome. -/
def run_echo (program : String) (args : List String) (env : OSEnv) :
    String × error_code × List Event :=
  (echo_line program args, run program args env)

/-! ### Helper lemmas -/

theorem find_quote_none_eq (l : List Char) (h : find_quote l = none) :
    replace_apostrophes l = l := by
  induction l with
  | nil => rfl
  | cons c rest ih =>
      rw [find_quote] at h
      by_cases hc : c = '\''
      · simp [hc] at h
      · rw [if_neg hc, Option.map_eq_none'] at h
        rw [replace_apostrophes, if_neg hc, ih h]
        rfl

theorem find_quote_some_eq (l : List Char) (i : Fin l.length) (h : find_quote l = some i) :
    replace_apostrophes l =
      l.take i.val ++ '\\' :: '\'' :: replace_apostrophes (l.drop (i.val + 1)) := by
  induction l with
  | nil => exact absurd i.isLt (by simp)
  | cons c rest ih =>
      rw [find_quote] at h
      by_cases hc : c = '\''
      · rw [if_pos hc, Option.some_inj] at h
        have hv : i.val = 0 := by rw [← h]
        rw [replace_apostrophes, if_pos hc, hv]
        simp [hc]
      · rw [if_neg hc, Option.map_eq_some'] at h
        obtain ⟨j, hj, hji⟩ := h
        have hv : i.val = j.val + 1 := by rw [← hji]
        rw [replace_apostrophes, if_neg hc, ih j hj, hv]
        simp

theorem escape_quotes_eq_spec (l : List Char) : escape_quotes l = replace_apostrophes l := by
  generalize hn : l.length = n
  induction n using Nat.strong_induction_on generalizing l with
  | _ n ih =>
    rw [escape_quotes]
    split
    next quote hf =>
      have hlt : (l.drop (quote.val + 1)).length < n := by
        have := quote.isLt
        simp only [List.length_drop]
        omega
      rw [find_quote_some_eq l quote hf, ih _ hlt (l.drop (quote.val + 1)) rfl]
      simp
    next hf => exact (find_quote_none_eq l hf).symm

theorem shell_quote_empty : shell_quote "" = "''" := rfl

theorem shell_quote_safe (s : String) (h1 : s ≠ "") (h2 : s.toList.all is_safe_char = true) :
    shell_quote s = s := by
  rw [shell_quote, if_neg, if_pos h2]
  simp [String.isEmpty_iff, h1]

theorem shell_quote_escaped (s : String) (h : s.toList.all is_safe_char = false) :
    shell_quote s = String.mk ('\'' :: replace_apostrophes s.toList ++ ['\'']) := by
  have hne : ¬ s.isEmpty = true := by
    intro he
    rw [String.isEmpty_iff] at he
    rw [he] at h
    simp at h
  rw [shell_quote, if_neg hne, if_neg (by rw [h]; simp), escape_quotes_eq_spec]

theorem WIFSIGNALED_termsig_ne_zero (s : Nat) (h : WIFSIGNALED s = true) :
    WTERMSIG s ≠ 0 := by
  intro h0
  rw [WIFSIGNALED, h0] at h
  simp at h
  exact absurd h (by decide)

theorem string_append_assoc (a b c : String) : a ++ b ++ c = a ++ (b ++ c) := by
  cases a with
  | mk da =>
    cases b with
    | mk db =>
      cases c with
      | mk dc =>
        show String.mk (da ++ db ++ dc) = String.mk (da ++ (db ++ dc))
        rw [List.append_assoc]

theorem echo_foldl_eq_spec (args : List String) :
    ∀ init : String,
      args.foldl (fun acc arg => acc ++ " " ++ shell_quote arg) init =
        init ++ echo_args_spec args := by
  induction args with
  | nil => intro init; simp [echo_args_spec]
  | cons a rest ih =>
      intro init
      rw [List.foldl_cons, ih, echo_args_spec]
      rw [string_append_assoc init " " (shell_quote a)]
      rw [string_append_assoc init (" " ++ shell_quote a) (echo_args_spec rest)]

/-! ### Claim theorems -/

/-- C1: when the exec-failure channel reads 0 after a successful waitpid, the
returned outcome is classified from the wait status in the priority order of
lines 118-125: normal exit with code 0 gives OK, normal exit with nonzero
code gives NON_ZERO_EXIT with that code, else termination by signal gives
KILLED_BY_SIGNAL with the signal number, else a stopped child gives
STOPPED_BY_SIGNAL with the signal number, otherwise UNKNOWN_TERMINATION with
payload 1. -/
theorem run_classifies_wait_status (p : String) (args : List String) (env : OSEnv) (w : Nat)
    (hm : env.mmap = SysResult.ok ()) (hf : env.fork = SysResult.ok ())
    (hc : child_channel env.exec = 0) (hw : env.wait = SysResult.ok w) :
    (WIFEXITED w = true → WEXITSTATUS w = 0 → (run p args env).1 = ok_code) ∧
    (WIFEXITED w = true → WEXITSTATUS w ≠ 0 →
      (run p args env).1 = ⟨(WEXITSTATUS w : Int), Domain.non_zero_exit_code⟩) ∧
    (WIFEXITED w = false → WIFSIGNALED w = true →
      (run p args env).1 = ⟨(WTERMSIG w : Int), Domain.killed_by_signal⟩) ∧
    (WIFEXITED w = false → WIFSIGNALED w = false → WIFSTOPPED w = true →
      (run p args env).1 = ⟨(WSTOPSIG w : Int), Domain.stopped_by_signal⟩) ∧
    (WIFEXITED w = false → WIFSIGNALED w = false → WIFSTOPPED w = false →
      (run p args env).1 = ⟨1, Domain.unknown_termination_cause⟩) := by
  simp only [run, hm, hf, hw, hc]
  rw [if_neg (by simp)]
  refine ⟨?_, ?_, ?_, ?_, ?_⟩
  · intro h1 h2
    rw [if_pos h1, if_pos h2]
  · intro h1 h2
    rw [if_pos h1, if_neg h2]
  · intro h1 h2
    rw [if_neg (by simp [h1]), if_pos h2]
  · intro h1 h2 h3
    rw [if_neg (by simp [h1]), if_neg (by simp [h2]), if_pos h3]
  · intro h1 h2 h3
    rw [if_neg (by simp [h1]), if_neg (by simp [h2]), if_neg (by simp [h3])]

/-- C1 witness: a concrete environment in which the child exits normally with
code 0 and the outcome is OK. -/
theorem run_classifies_wait_status_witness :
    (run "true" [] ⟨SysResult.ok (), SysResult.ok (), ExecBehavior.replaced,
        SysResult.ok 0⟩).1 = ok_code :=
  (run_classifies_wait_status "true" []
      ⟨SysResult.ok (), SysResult.ok (), ExecBehavior.replaced, SysResult.ok 0⟩ 0
      rfl rfl rfl rfl).1 (by decide) rfl

/-- C2: when execlp fails in the child (so the child stores its nonzero errno
into the channel and exits) and waitpid succeeds with any wait status, run
returns the host-OS errno outcome carrying the exec-time errno; the nonzero
channel takes strict priority over the wait status. -/
theorem run_exec_failure_dominates (p : String) (args : List String) (env : OSEnv)
    (rv : Int) (e : Nat) (w : Nat)
    (hm : env.mmap = SysResult.ok ()) (hf : env.fork = SysResult.ok ())
    (he : env.exec = ExecBehavior.returned rv e) (hrv : rv < 0) (hne : e ≠ 0)
    (hw : env.wait = SysResult.ok w) :
    (run p args env).1 = make_error_code e := by
  have hcc : child_channel env.exec = (e : Int) := by
    rw [he]
    simp [child_channel, childPath, hrv]
  simp only [run, hm, hf, hw, hcc]
  rw [if_pos (Int.natCast_ne_zero.mpr hne)]
  rfl

/-- C2 witness: a concrete exec failure with errno 2 and a wait status that
would otherwise read as a clean exit still reports errno 2. -/
theorem run_exec_failure_dominates_witness :
    (run "nope" [] ⟨SysResult.ok (), SysResult.ok (),
        ExecBehavior.returned (-1) 2, SysResult.ok 256⟩).1 = make_error_code 2 :=
  run_exec_failure_dominates "nope" []
    ⟨SysResult.ok (), SysResult.ok (), ExecBehavior.returned (-1) 2, SysResult.ok 256⟩
    (-1) 2 256 rfl rfl rfl (by decide) (by decide) rfl

/-- C3: the exec-failure cell is released exactly once on every return path
on which it was allocated, and never on the allocation-failure path: the
event trace of run is empty when mmap fails, and otherwise ends in exactly
one free following the allocation. -/
theorem run_releases_channel_exactly_once (p : String) (args : List String) (env : OSEnv) :
    (run p args env).2 =
      match env.mmap, env.fork with
      | SysResult.err _, _ => []
      | SysResult.ok _, SysResult.err _ => [Event.alloc, Event.free]
      | SysResult.ok _, SysResult.ok _ => [Event.alloc, Event.forked, Event.free] := by
  rcases env with ⟨m, f, ex, wt⟩
  cases m with
  | err e => rfl
  | ok u =>
    cases f with
    | err e => rfl
    | ok v =>
      cases wt with
      | err e => rfl
      | ok w =>
        simp only [run]
        split_ifs <;> rfl

/-- C6: each of the three early-failure paths (mmap, fork, waitpid) reports
the captured errno as a host-OS outcome, and a failed allocation never forks
a child. -/
theorem run_reports_os_failures (p : String) (args : List String) (env : OSEnv) (e : Nat) :
    (env.mmap = SysResult.err e →
      (run p args env).1 = make_error_code e ∧ Event.forked ∉ (run p args env).2) ∧
    (env.mmap = SysResult.ok () → env.fork = SysResult.err e →
      (run p args env).1 = make_error_code e) ∧
    (env.mmap = SysResult.ok () → env.fork = SysResult.ok () →
      env.wait = SysResult.err e → (run p args env).1 = make_error_code e) := by
  rcases env with ⟨m, f, ex, wt⟩
  refine ⟨?_, ?_, ?_⟩
  · intro hm
    cases hm
    exact ⟨rfl, by simp [run]⟩
  · intro hm hf
    cases hm
    cases hf
    rfl
  · intro hm hf hw
    cases hm
    cases hf
    cases hw
    rfl

/-- C6 witness: concrete mmap, fork and waitpid failures with errnos 12, 11
and 10. -/
theorem run_reports_os_failures_witness :
    (run "x" [] ⟨SysResult.err 12, SysResult.ok (), ExecBehavior.replaced,
        SysResult.ok 0⟩).1 = make_error_code 12 ∧
    (run "x" [] ⟨SysResult.ok (), SysResult.err 11, ExecBehavior.replaced,
        SysResult.ok 0⟩).1 = make_error_code 11 ∧
    (run "x" [] ⟨SysResult.ok (), SysResult.ok (), ExecBehavior.replaced,
        SysResult.err 10⟩).1 = make_error_code 10 :=
  ⟨((run_reports_os_failures "x" []
      ⟨SysResult.err 12, SysResult.ok (), ExecBehavior.replaced, SysResult.ok 0⟩ 12).1
      rfl).1,
   (run_reports_os_failures "x" []
      ⟨SysResult.ok (), SysResult.err 11, ExecBehavior.replaced, SysResult.ok 0⟩ 11).2.1
      rfl rfl,
   (run_reports_os_failures "x" []
      ⟨SysResult.ok (), SysResult.ok (), ExecBehavior.replaced, SysResult.err 10⟩ 10).2.2
      rfl rfl rfl⟩

/-- C7: the four library-defined error domains report the stable name strings
and message renderings of the specification table. -/
theorem error_domains_stable_rendering :
    Non_Zero_Exit_Code.name = "Non_Zero_Exit_Code" ∧
    (∀ n : Int, Non_Zero_Exit_Code.message n = "exit status " ++ toString n) ∧
    Killed_By_Signal.name = "Killed_By_Signal" ∧
    (∀ n : Int, Killed_By_Signal.message n = "killed by signal " ++ toString n) ∧
    Stopped_By_Signal.name = "Stopped_By_Signal" ∧
    (∀ n : Int, Stopped_By_Signal.message n = "stopped by signal " ++ toString n) ∧
    Unknown_Termination_Cause.name = "Unknown_Termination_Cause" ∧
    (∀ n : Int, Unknown_Termination_Cause.message n = "unknown termination cause") :=
  ⟨rfl, fun _ => rfl, rfl, fun _ => rfl, rfl, fun _ => rfl, rfl, fun _ => rfl⟩

/-- C8: run_echo prints the quoted program, then for each argument a space
followed by its quoting, then a newline, and returns the outcome of run on
the same inputs unchanged. -/
theorem run_echo_refines_spec (p : String) (args : List String) (env : OSEnv) :
    (run_echo p args env).1 = echo_line_spec p args ∧
    (run_echo p args env).2 = run p args env := by
  constructor
  · show echo_line p args = echo_line_spec p args
    rw [echo_line, echo_line_spec, echo_foldl_eq_spec args (shell_quote p)]
  · rfl

/-- C9: under POSIX-valid OS behaviour the outcome of run has payload zero
exactly when it is the OK outcome, so OK is distinguishable from every non-OK
outcome by payload alone. -/
theorem run_ok_iff_zero_payload (p : String) (args : List String) (env : OSEnv)
    (hv : env.valid) :
    ((run p args env).1.val = 0 ↔ (run p args env).1 = ok_code) := by
  rcases env with ⟨m, f, ex, wt⟩
  obtain ⟨h1, h2, h3, h4⟩ := hv
  cases m with
  | err e =>
      have h1e : e ≠ 0 := h1
      simp [run, make_error_code, ok_code, h1e]
  | ok u =>
    cases f with
    | err e =>
        have h2e : e ≠ 0 := h2
        simp [run, make_error_code, ok_code, h2e]
    | ok v =>
      cases wt with
      | err e =>
          have h4e : e ≠ 0 := h4
          simp [run, make_error_code, ok_code, h4e]
      | ok w =>
        have h4w : WIFSTOPPED w = true → WSTOPSIG w ≠ 0 := h4
        simp only [run]
        by_cases hch : child_channel ex ≠ 0
        · rw [if_pos hch]
          simp [ok_code, hch]
        · rw [if_neg hch]
          by_cases he : WIFEXITED w = true
          · rw [if_pos he]
            by_cases hz : WEXITSTATUS w = 0
            · rw [if_pos hz]
              simp [ok_code]
            · rw [if_neg hz]
              simp [ok_code, hz]
          · rw [if_neg he]
            by_cases hs : WIFSIGNALED w = true
            · rw [if_pos hs]
              have hts := WIFSIGNALED_termsig_ne_zero w hs
              simp [ok_code, hts]
            · rw [if_neg hs]
              by_cases hst : WIFSTOPPED w = true
              · rw [if_pos hst]
                have hss := h4w hst
                simp [ok_code, hss]
              · rw [if_neg hst]
                simp [ok_code]

/-- C9 witness: a concrete valid environment with a clean exit, where the
payload-zero outcome is exactly OK. -/
theorem run_ok_iff_zero_payload_witness :
    ((run "true" [] ⟨SysResult.ok (), SysResult.ok (), ExecBehavior.replaced,
        SysResult.ok 0⟩).1.val = 0 ↔
      (run "true" [] ⟨SysResult.ok (), SysResult.ok (), ExecBehavior.replaced,
        SysResult.ok 0⟩).1 = ok_code) :=
  run_ok_iff_zero_payload "true" []
    ⟨SysResult.ok (), SysResult.ok (), ExecBehavior.replaced, SysResult.ok 0⟩
    ⟨trivial, trivial, trivial, by decide⟩

/-- C10: under the POSIX contract for execlp (either the image is replaced or
the call returns a negative value with errno set) the assert after the execlp
call in the child branch is never reached. -/
theorem child_assert_unreachable (b : ExecBehavior) (hb : PosixExec b) :
    childPath b ≠ ChildOutcome.assertReached := by
  cases b with
  | replaced => simp [childPath]
  | returned rv e =>
      have hrv : rv < 0 := hb.1
      rw [childPath, if_pos hrv]
      simp

/-- C10 witness: the successful-exec behaviour does not reach the assert. -/
theorem child_assert_unreachable_witness :
    childPath ExecBehavior.replaced ≠ ChildOutcome.assertReached :=
  child_assert_unreachable ExecBehavior.replaced trivial

/-- C4 fails at the empty string: every byte of the empty string satisfies
the safe-set predicate vacuously, yet shell_quote returns a pair of
apostrophes rather than the empty string itself. -/
theorem shell_quote_safe_counterexample :
    ("".toList.all is_safe_char = true) ∧ shell_quote "" ≠ "" := by
  refine ⟨rfl, ?_⟩
  decide

/-- C4 (amended): every nonempty byte string all of whose bytes are
alphanumeric or in the safe set is returned byte-for-byte; the empty string
is returned as a pair of apostrophes. -/
theorem shell_quote_safe_verbatim :
    (∀ s : String, s ≠ "" → s.toList.all is_safe_char = true → shell_quote s = s) ∧
    shell_quote "" = "''" :=
  ⟨fun s h1 h2 => shell_quote_safe s h1 h2, rfl⟩

/-- C4 witness: a concrete safe string returned verbatim. -/
theorem shell_quote_safe_verbatim_witness : shell_quote "abc" = "abc" :=
  shell_quote_safe_verbatim.1 "abc" (by decide) (by decide)

/-- C5: every byte string containing a byte outside the safe set is returned
as the input with each apostrophe replaced by backslash-apostrophe, wrapped
in one pair of apostrophes; with the four concrete renderings of the
specification. -/
theorem shell_quote_wraps_and_escapes :
    (∀ s : String, s ≠ "" → s.toList.all is_safe_char = false →
      shell_quote s = String.mk ('\'' :: replace_apostrophes s.toList ++ ['\''])) ∧
    shell_quote "hello" = "hello" ∧
    shell_quote "a b" = "'a b'" ∧
    shell_quote "it's" = "'it\\'s'" ∧
    shell_quote "" = "''" := by
  refine ⟨fun s _ h => shell_quote_escaped s h, ?_, ?_, ?_, rfl⟩
  · decide
  · rw [shell_quote_escaped "a b" (by decide)]
    decide
  · rw [shell_quote_escaped "it's" (by decide)]
    decide

/-- C5 witness: a concrete unsafe string rendered by the escape transform. -/
theorem shell_quote_wraps_and_escapes_witness :
    shell_quote "a$" = String.mk ('\'' :: replace_apostrophes "a$".toList ++ ['\'']) :=
  shell_quote_wraps_and_escapes.1 "a$" (by decide) (by decide)

end os_exec
